import Mathlib

/-!
Shallow embedding of `src/remote_mcp/server.py` (notes-mcp).

The repository ships `server.py` and `unified_server.py`; the event system
they import (`event_manager.py`: `event_manager`, `EventType`, `EventPriority`,
`emit_event`, `EventFilter`) is not among the sources, so those parts are
modelled from the specification (sections 3-4.6) and marked as such in their
doc comments. Everything else is translated from `server.py`.

Python dicts are embedded as insertion-ordered association lists, machine
integers as `Int`/`Nat` (Python ints are unbounded), wall-clock timestamps as
an explicit `now : Nat` parameter, and dict-shaped results as structures in
which a key that is present only on some paths becomes an `Option` field
(`none` = key absent).
-/

namespace NotesMcp

/-- Modelled from the spec: `EventType` from the missing `event_manager.py`,
event types `CREATE | UPDATE | DELETE | LIST` (spec section 3). -/
inductive EventType where
  | CREATE
  | UPDATE
  | DELETE
  | LIST
deriving DecidableEq

/-- Modelled from the spec: `EventPriority` from the missing
`event_manager.py`, ordered `LOW(0) < NORMAL(1) < HIGH(2) < CRITICAL(3)`
(spec sections 3 and 6). -/
inductive EventPriority where
  | LOW
  | NORMAL
  | HIGH
  | CRITICAL
deriving DecidableEq

/-- Modelled from the spec: the numeric value of a priority,
`LOW(0) < NORMAL(1) < HIGH(2) < CRITICAL(3)`. -/
def EventPriority.val : EventPriority → Nat
  | .LOW => 0
  | .NORMAL => 1
  | .HIGH => 2
  | .CRITICAL => 3

/-- Modelled from the spec: an event of the missing event log (spec section 3):
`id` (integer, strictly increasing, assigned at append time), `type`,
`target`, `priority`, optional `ui_hint`. The opaque `payload` (structured
data describing the change) is not modelled; no claim inspects it. -/
structure Event where
  id : Nat
  type : EventType
  target : String
  priority : EventPriority
  ui_hint : Option String
deriving DecidableEq

/-- Modelled from the spec: the event attributes chosen by an emitter before
the log assigns an id (the draft passed to `append`, spec section 4.1). -/
structure EventDraft where
  type : EventType
  target : String
  priority : EventPriority
  ui_hint : Option String
deriving DecidableEq

/-- Modelled from the spec: `EventFilter` from the missing `event_manager.py`
(spec section 3): `targets` (set of kinds, empty/absent = all),
`priority_min` (numeric), `since` (exclusive id cursor). -/
structure EventFilter where
  targets : Option (List String)
  priority_min : Nat
  since : Option Nat
deriving DecidableEq

/-- Modelled from the spec: the Matcher (spec section 4.2): true iff
(`filter.targets` empty or contains `event.target`) and
`event.priority >= filter.priority_min` and `event.id > filter.since`. -/
def event_matches (e : Event) (f : EventFilter) : Bool :=
  (match f.targets with
   | none => true
   | some ts => ts.isEmpty || ts.contains e.target)
  && decide (f.priority_min ≤ e.priority.val)
  && (match f.since with
      | none => true
      | some c => decide (c < e.id))

/-- Modelled from the spec: the state of the `event_manager` bus — the
bounded append-only EventLog (spec section 4.1): a ring buffer of capacity
`capacity` holding the resident events in ascending id order, plus the next
id to assign (ids are strictly increasing for the process lifetime). -/
structure EventBus where
  log : List Event
  nextId : Nat
  capacity : Nat
deriving DecidableEq

/-- Modelled from the spec: `latest_id()` (spec section 4.1) — current
highest id, `0` if empty (the log is kept in ascending id order). -/
def EventBus.latest_id (bus : EventBus) : Nat :=
  ((bus.log.getLast?).map Event.id).getD 0

/-- Modelled from the spec: `events_since(cursor)` (spec section 4.1) — all
resident events with `id > cursor`, in log order; never mutates state. -/
def EventBus.events_since (bus : EventBus) (cursor : Nat) : List Event :=
  bus.log.filter fun e => cursor < e.id

/-- Modelled from the spec: `append(draft)` (spec section 4.1) — assigns the
next id, stores the finalized event in the ring buffer (oldest entries are
dropped once capacity is exceeded), and returns it. -/
def EventBus.append (bus : EventBus) (d : EventDraft) : EventBus × Event :=
  let e : Event :=
    { id := bus.nextId, type := d.type, target := d.target,
      priority := d.priority, ui_hint := d.ui_hint }
  let full := bus.log ++ [e]
  ({ bus with log := full.drop (full.length - bus.capacity),
              nextId := bus.nextId + 1 }, e)

/-- Modelled from the spec: the `summary` of a wait result — counts grouped
by target/type (spec section 4.3, step 1). -/
def summarize (events : List Event) : List ((String × EventType) × Nat) :=
  ((events.map fun e => (e.target, e.type)).dedup).map
    fun k => (k, events.countP fun e => decide ((e.target, e.type) = k))

/-- Result shape of `wait_for_updates` in `server.py`. The tool returns a
dict whose key set differs between paths; a key present only on some paths
is an `Option` field, with `none` meaning the key is absent. -/
structure WaitResult where
  status : String
  error : Option String
  events : List Event
  summary : List ((String × EventType) × Nat)
  last_event_id : Option Nat
  duration : Option Int
deriving DecidableEq

/-- Modelled from the spec: `event_manager.wait_for_updates`, the
WaitScheduler (spec section 4.3). The cursor defaults to the current
`latest_id()`. Fast path: matching backlog is returned immediately with
`status="updates"`, the matches in log order, their summary, the id of the
last match, and elapsed duration (0 in this instantaneous model). Slow path:
this single-threaded embedding has no concurrent producers, so a wait with
no matching backlog resolves by its deadline: `status="timeout"`, empty
events, cursor unchanged; a non-positive deadline elapses immediately. -/
def EventBus.wait_for_updates (bus : EventBus) (flt : EventFilter)
    (timeout : Int) (since : Option Nat) : WaitResult :=
  let cursor := since.getD bus.latest_id
  let matched := (bus.events_since cursor).filter fun e => event_matches e flt
  match matched.getLast? with
  | some last =>
      { status := "updates", error := none, events := matched,
        summary := summarize matched, last_event_id := some last.id,
        duration := some 0 }
  | none =>
      { status := "timeout", error := none, events := [], summary := [],
        last_event_id := some cursor, duration := some (max timeout 0) }

/-- A full snapshot of the resource stores, or the literal empty dict `{}`
that `sync_changes` in `server.py` returns for `state` when the event system
is unavailable. -/
inductive SyncState (Note Task : Type) where
  | emptyObj : SyncState Note Task
  | full : List Note → List Task → SyncState Note Task
deriving DecidableEq

/-- A task record as built by `task_create` in `server.py` (timestamps are
the opaque clock values passed as `now`). -/
structure Task where
  id : String
  title : String
  description : String
  priority : String
  status : String
  created_at : Nat
  updated_at : Nat
deriving DecidableEq

/-- A note record as built by `write_note` in `server.py`. -/
structure Note where
  id : String
  title : String
  summary : String
  tags : List String
  content : String
  created_at : Nat
  updated_at : Nat
deriving DecidableEq

/-- Result shape of `sync_changes` in `server.py`; `state` is an `Option`
field because the key is present only on some paths (`none` = key absent),
and `next_sync_id` passes through the caller's possibly-absent cursor. -/
structure SyncResult where
  events : List Event
  next_sync_id : Option Nat
  state : Option (SyncState Note Task)
deriving DecidableEq

/-- Modelled from the spec: `event_manager.sync_changes`, the SyncEngine
(spec section 4.5): `events = events_since(last_sync_id)` (cursor defaults
to 0, no target/priority filtering), `next_sync_id` = id of the last
returned event or the cursor unchanged if none, `state` present only if
`include_full_state` is set, built from the snapshot provider. -/
def EventBus.sync_changes (bus : EventBus) (last_sync_id : Option Nat)
    (include_full_state : Bool) (snapshot : SyncState Note Task) : SyncResult :=
  let cursor := last_sync_id.getD 0
  let evs := bus.events_since cursor
  { events := evs,
    next_sync_id := some (((evs.getLast?).map Event.id).getD cursor),
    state := if include_full_state then some snapshot else none }

/-- The module-level mutable state of `server.py`: `tasks_db`,
`task_counter`, `notes_db`, `note_counter`, and the imported
`event_manager` (`none` embeds the fallback where the event system is
unavailable). Python dicts become insertion-ordered association lists. -/
structure ServerState where
  tasks_db : List (String × Task)
  task_counter : Nat
  notes_db : List (String × Note)
  note_counter : Nat
  event_manager : Option EventBus
deriving DecidableEq

/-- `db[k] = v` on a Python dict: overwrite in place if the key exists
(insertion order is kept), otherwise append at the end. -/
def dictInsert {α : Type} (db : List (String × α)) (k : String) (v : α) :
    List (String × α) :=
  if (db.lookup k).isSome then
    db.map fun kv => if kv.1 = k then (k, v) else kv
  else
    db ++ [(k, v)]

/-- `del db[k]` on a Python dict. -/
def dictDelete {α : Type} (db : List (String × α)) (k : String) :
    List (String × α) :=
  db.filter fun kv => kv.1 ≠ k

/-- Python truthiness of an optional string argument (`if s:`): false for
`None` and for the empty string. -/
def optStrTruthy : Option String → Bool
  | none => false
  | some v => v ≠ ""

/-- Python truthiness of an optional list argument (`if l:`): false for
`None` and for the empty list. -/
def optListTruthy {α : Type} : Option (List α) → Bool
  | none => false
  | some l => !l.isEmpty

/-- The `priority_map` dict literal of `wait_for_updates` in `server.py`
(lines 173-178), with the event system available so each value is the
`EventPriority` member. -/
def priority_map : List (String × EventPriority) :=
  [("low", .LOW), ("normal", .NORMAL), ("high", .HIGH), ("critical", .CRITICAL)]

/-- `priority = priority_map.get(priority_min, 1)` in `server.py` (line 179),
as the numeric priority handed to the filter: a label missing from the map
defaults to 1 (NORMAL). -/
def wait_priority (priority_min : String) : Nat :=
  (((priority_map.lookup priority_min).map EventPriority.val)).getD 1

/-- `min(timeout, 300)` — the timeout value `wait_for_updates` in
`server.py` (line 194) forwards to `event_manager.wait_for_updates`. -/
def forwarded_timeout (timeout : Int) : Int :=
  min timeout 300

/-- The `wait_for_updates` MCP tool of `server.py` (lines 135-200). When the
event manager is unavailable it returns the dict
`{status: "error", error: ..., events: [], summary: {}}` (no `last_event_id`
or `duration` key). Otherwise it converts the priority label, builds the
filter and delegates to the bus with the timeout capped at 300. -/
def wait_for_updates (s : ServerState) (targets : Option (List String))
    (timeout : Int) (since : Option Nat) (priority_min : String) : WaitResult :=
  match s.event_manager with
  | none =>
      { status := "error", error := some "Event system not available",
        events := [], summary := [], last_event_id := none, duration := none }
  | some bus =>
      let priority := wait_priority priority_min
      let filter_obj : EventFilter :=
        { targets := targets, priority_min := priority, since := since }
      bus.wait_for_updates filter_obj (forwarded_timeout timeout) since

/-- The `sync_changes` MCP tool of `server.py` (lines 202-242). When the
event manager is unavailable it returns
`{events: [], next_sync_id: last_sync_id, state: {}}`. Otherwise it
delegates to the bus and, if `include_full_state`, overwrites `state` with
`{notes: list(notes_db.values()), tasks: list(tasks_db.values())}`. -/
def sync_changes (s : ServerState) (last_sync_id : Option Nat)
    (include_full_state : Bool) : SyncResult :=
  match s.event_manager with
  | none =>
      { events := [], next_sync_id := last_sync_id,
        state := some .emptyObj }
  | some bus =>
      let snap : SyncState Note Task :=
        .full (s.notes_db.map Prod.snd) (s.tasks_db.map Prod.snd)
      let result := bus.sync_changes last_sync_id include_full_state snap
      if include_full_state then
        { result with state := some snap }
      else
        result

/-- Result of `task_create` / `task_update` in `server.py`: either the task
record or an error dict. -/
inductive TaskResult where
  | ok : Task → TaskResult
  | err : String → TaskResult
deriving DecidableEq

/-- Result of `task_delete` / `delete_note` in `server.py`: either a
success message or an error dict. -/
inductive DeleteResult where
  | ok : String → DeleteResult
  | err : String → DeleteResult
deriving DecidableEq

/-- The `task_create` MCP tool of `server.py` (lines 248-279): bumps the
counter, builds `task_<counter>` with status `pending` and both timestamps
set to `now`, stores it and returns it. -/
def task_create (now : Nat) (title : String) (description : String)
    (priority : String) (s : ServerState) : Task × ServerState :=
  let counter := s.task_counter + 1
  let task_id := "task_" ++ toString counter
  let task : Task :=
    { id := task_id, title := title, description := description,
      priority := priority, status := "pending",
      created_at := now, updated_at := now }
  (task, { s with task_counter := counter,
                  tasks_db := dictInsert s.tasks_db task_id task })

/-- The `task_list` MCP tool of `server.py` (lines 281-294): all tasks,
optionally filtered by a truthy `status`. -/
def task_list (status : Option String) (s : ServerState) : List Task :=
  let tasks := s.tasks_db.map Prod.snd
  if optStrTruthy status then
    tasks.filter fun t => t.status = status.getD ""
  else
    tasks

/-- The `task_update` MCP tool of `server.py` (lines 296-331): error if the
id is unknown; otherwise each truthy argument overwrites its field and
`updated_at` is refreshed. -/
def task_update (now : Nat) (task_id : String) (status : Option String)
    (title : Option String) (description : Option String)
    (priority : Option String) (s : ServerState) : TaskResult × ServerState :=
  match s.tasks_db.lookup task_id with
  | none => (.err ("Task " ++ task_id ++ " not found"), s)
  | some task =>
      let task := if optStrTruthy status then
          { task with status := status.getD "" } else task
      let task := if optStrTruthy title then
          { task with title := title.getD "" } else task
      let task := if optStrTruthy description then
          { task with description := description.getD "" } else task
      let task := if optStrTruthy priority then
          { task with priority := priority.getD "" } else task
      let task := { task with updated_at := now }
      (.ok task, { s with tasks_db := dictInsert s.tasks_db task_id task })

/-- The `task_delete` MCP tool of `server.py` (lines 333-346): error if the
id is unknown; otherwise removes the task and reports success. -/
def task_delete (task_id : String) (s : ServerState) :
    DeleteResult × ServerState :=
  match s.tasks_db.lookup task_id with
  | none => (.err ("Task " ++ task_id ++ " not found"), s)
  | some _ =>
      (.ok ("Task " ++ task_id ++ " deleted"),
       { s with tasks_db := dictDelete s.tasks_db task_id })

/-- Modelled from the spec: the `emit_event` decorator of the missing
`event_manager.py`, the emit adapter (spec section 4.6): after the wrapped
operation returns, and only when it did not fail, append the derived draft
to the log and notify; with the event system unavailable the decorator is
the identity (`server.py` lines 28-34). Emission never alters the
operation's own result or the resource stores. -/
def emit_after (d : EventDraft) (failed : Bool) (s : ServerState) :
    ServerState :=
  match s.event_manager with
  | none => s
  | some bus =>
      if failed then s
      else { s with event_manager := some (bus.append d).1 }

/-- The draft fixed by the decorator on `list_notes` in `server.py`
(line 353): `emit_event(EventType.LIST, target="note")`. Modelled from the
spec: the missing decorator's default priority is taken as NORMAL and no
ui_hint is attached when none is given. -/
def list_notes_draft : EventDraft :=
  { type := .LIST, target := "note", priority := .NORMAL, ui_hint := none }

/-- The draft fixed by the decorator on `write_note` in `server.py`
(line 394): `emit_event(EventType.CREATE, target="note",
ui_hint="navigate_to", priority=EventPriority.HIGH)`. -/
def write_note_draft : EventDraft :=
  { type := .CREATE, target := "note", priority := .HIGH,
    ui_hint := some "navigate_to" }

/-- The draft fixed by the decorator on `delete_note` in `server.py`
(line 444): `emit_event(EventType.DELETE, target="note",
priority=EventPriority.HIGH)`. -/
def delete_note_draft : EventDraft :=
  { type := .DELETE, target := "note", priority := .HIGH, ui_hint := none }

/-- A simplified note entry as returned by `list_notes` in `server.py`. -/
structure NoteOverview where
  id : String
  title : String
  summary : String
  tags : List String
deriving DecidableEq

/-- Result of `list_notes` in `server.py`: `{count, notes}`. -/
structure ListNotesResult where
  count : Nat
  notes : List NoteOverview
deriving DecidableEq

/-- The body of the `list_notes` tool of `server.py` (lines 354-378),
before the decorator: all notes, filtered by truthy `tags`, simplified. -/
def list_notes_raw (tags : Option (List String)) (s : ServerState) :
    ListNotesResult :=
  let notes := s.notes_db.map Prod.snd
  let notes := if optListTruthy tags then
      notes.filter fun n => (tags.getD []).any fun tag => n.tags.contains tag
    else notes
  { count := notes.length,
    notes := notes.map fun n =>
      { id := n.id, title := n.title, summary := n.summary, tags := n.tags } }

/-- The `list_notes` MCP tool of `server.py`: the body wrapped by
`emit_event(EventType.LIST, target="note")`; reading the list always
succeeds, so an event is always emitted. -/
def list_notes (tags : Option (List String)) (s : ServerState) :
    ListNotesResult × ServerState :=
  (list_notes_raw tags s, emit_after list_notes_draft false s)

/-- Result of `get_note` in `server.py`: the note or an error dict. -/
inductive GetNoteResult where
  | ok : Note → GetNoteResult
  | err : String → GetNoteResult
deriving DecidableEq

/-- The `get_note` MCP tool of `server.py` (lines 380-391): not decorated,
touches no state. -/
def get_note (note_id : String) (s : ServerState) : GetNoteResult :=
  match s.notes_db.lookup note_id with
  | none => .err ("Note with ID '" ++ note_id ++ "' not found")
  | some n => .ok n

/-- Result of `write_note` in `server.py`: `{success, action, note}`. -/
structure WriteResult where
  success : Bool
  action : String
  note : Note
deriving DecidableEq

/-- The body of the `write_note` tool of `server.py` (lines 395-441),
before the decorator: a falsy `note_id` mints
`<title.lower().replace(" ", "-")[:30]>-<counter>`; the note keeps any
existing `created_at`; `action` reports whether the id already existed. -/
def write_note_raw (now : Nat) (title : String) (content : String)
    (summary : String) (tags : Option (List String)) (note_id : Option String)
    (s : ServerState) : WriteResult × ServerState :=
  let fresh := !optStrTruthy note_id
  let counter := if fresh then s.note_counter + 1 else s.note_counter
  let nid :=
    if fresh then
      ((title.toLower.replace " " "-").take 30) ++ "-" ++ toString counter
    else note_id.getD ""
  let note : Note :=
    { id := nid, title := title, summary := summary, tags := tags.getD [],
      content := content,
      created_at := ((s.notes_db.lookup nid).map Note.created_at).getD now,
      updated_at := now }
  let is_update := (s.notes_db.lookup nid).isSome
  let action := if is_update then "updated" else "created"
  ({ success := true, action := action, note := note },
   { s with note_counter := counter,
            notes_db := dictInsert s.notes_db nid note })

/-- The `write_note` MCP tool of `server.py`: the body wrapped by
`emit_event(EventType.CREATE, target="note", ui_hint="navigate_to",
priority=EventPriority.HIGH)`; the body always succeeds, so an event is
always emitted. -/
def write_note (now : Nat) (title : String) (content : String)
    (summary : String) (tags : Option (List String)) (note_id : Option String)
    (s : ServerState) : WriteResult × ServerState :=
  let (r, s1) := write_note_raw now title content summary tags note_id s
  (r, emit_after write_note_draft false s1)

/-- The body of the `delete_note` tool of `server.py` (lines 445-457),
before the decorator: error if the id is unknown, otherwise remove. -/
def delete_note_raw (note_id : String) (s : ServerState) :
    DeleteResult × ServerState :=
  match s.notes_db.lookup note_id with
  | none => (.err ("Note with ID '" ++ note_id ++ "' not found"), s)
  | some _ =>
      (.ok ("Note with ID '" ++ note_id ++ "' has been deleted"),
       { s with notes_db := dictDelete s.notes_db note_id })

/-- Whether a `DeleteResult` is the error dict — the failed-operation test
the emit adapter applies (spec section 4.6: no event for a failed
operation). -/
def DeleteResult.isErr : DeleteResult → Bool
  | .ok _ => false
  | .err _ => true

/-- The `delete_note` MCP tool of `server.py`: the body wrapped by
`emit_event(EventType.DELETE, target="note", priority=EventPriority.HIGH)`;
the adapter emits only when the body did not fail. -/
def delete_note (note_id : String) (s : ServerState) :
    DeleteResult × ServerState :=
  let (r, s1) := delete_note_raw note_id s
  (r, emit_after delete_note_draft r.isErr s1)

/-- A fresh bus as allocated at startup: empty log, first id 1 (Scenario A
of the spec: the first emit is assigned id 1), an arbitrary documented
capacity. -/
def bus0 : EventBus :=
  { log := [], nextId := 1, capacity := 100 }

/-- Server state in the standalone fallback where the event system is
unavailable (`server.py` lines 28-34). -/
def emptyNoBus : ServerState :=
  { tasks_db := [], task_counter := 0, notes_db := [], note_counter := 0,
    event_manager := none }

/-- Initial server state with the event manager started. -/
def emptyWithBus : ServerState :=
  { tasks_db := [], task_counter := 0, notes_db := [], note_counter := 0,
    event_manager := some bus0 }

/-- A sample stored note. -/
def sampleNote : Note :=
  { id := "n1", title := "t", summary := "s", tags := [], content := "c",
    created_at := 0, updated_at := 0 }

/-- Server state holding exactly the sample note, event manager started. -/
def oneNoteState : ServerState :=
  { tasks_db := [], task_counter := 0, notes_db := [("n1", sampleNote)],
    note_counter := 1, event_manager := some bus0 }

/-- Shape of every result of the modelled wait scheduler: the status is
`updates` or `timeout`, and the `last_event_id` and `duration` keys are
always present. -/
theorem wait_result_shape (bus : EventBus) (flt : EventFilter) (t : Int)
    (since : Option Nat) :
    ((bus.wait_for_updates flt t since).status = "updates" ∨
      (bus.wait_for_updates flt t since).status = "timeout") ∧
    (bus.wait_for_updates flt t since).last_event_id.isSome = true ∧
    (bus.wait_for_updates flt t since).duration.isSome = true := by
  unfold EventBus.wait_for_updates
  cases h : ((bus.events_since (since.getD bus.latest_id)).filter
      fun e => event_matches e flt).getLast? <;>
    simp [h]

/-- C1: the claim as stated is false at `timeout = -1`: `wait_for_updates`
forwards `min(timeout, 300) = -1` to the wait scheduler, which does not lie
in `[0, 300]` — there is no clamping of negative values to `0`. -/
theorem C1_counterexample :
    forwarded_timeout (-1) = -1 ∧ ¬ (0 ≤ forwarded_timeout (-1)) := by
  constructor
  · rfl
  · decide

/-- C1 amended: the timeout forwarded to the wait scheduler is
`min(timeout, 300)`: it never exceeds 300, a non-negative timeout stays
non-negative (so values above 300 are clamped to 300), but a negative
timeout is forwarded unchanged rather than clamped to 0; with the event
system available the call still resolves with status `updates` or `timeout`,
never failing because of the timeout value. -/
theorem C1_timeout_cap (t : Int) (s : ServerState) (bus : EventBus)
    (targets : Option (List String)) (since : Option Nat)
    (priority_min : String) (hbus : s.event_manager = some bus) :
    forwarded_timeout t ≤ 300 ∧
    (0 ≤ t → 0 ≤ forwarded_timeout t) ∧
    (t < 0 → forwarded_timeout t = t) ∧
    ((wait_for_updates s targets t since priority_min).status = "updates" ∨
      (wait_for_updates s targets t since priority_min).status = "timeout") := by
  refine ⟨min_le_right t 300, fun h => le_min h (by norm_num),
    fun h => min_eq_left (by omega), ?_⟩
  unfold wait_for_updates
  rw [hbus]
  exact (wait_result_shape bus _ _ since).1

/-- C1 witness: at `timeout = 301` and a started bus, the forwarded value is
capped at 300 and the call resolves with a regular status. -/
theorem C1_witness :
    forwarded_timeout 301 ≤ 300 ∧
    ((wait_for_updates emptyWithBus none 301 none "normal").status = "updates" ∨
      (wait_for_updates emptyWithBus none 301 none "normal").status = "timeout") := by
  have h := C1_timeout_cap 301 emptyWithBus bus0 none none "normal" rfl
  exact ⟨h.1, h.2.2.2⟩

/-- C2: with the event system unavailable, `wait_for_updates` returns the
structured dict with status `error` and empty events, and `sync_changes`
returns the structured dict with empty events (and the cursor passed back);
both are ordinary return values, not exceptions. -/
theorem C2_unavailable_structured (s : ServerState)
    (targets : Option (List String)) (t : Int) (since : Option Nat)
    (priority_min : String) (lsi : Option Nat) (inc : Bool)
    (h : s.event_manager = none) :
    (wait_for_updates s targets t since priority_min).status = "error" ∧
    (wait_for_updates s targets t since priority_min).events = [] ∧
    (sync_changes s lsi inc).events = [] ∧
    (sync_changes s lsi inc).next_sync_id = lsi := by
  unfold wait_for_updates sync_changes
  rw [h]
  exact ⟨rfl, rfl, rfl, rfl⟩

/-- C2 witness: the unavailable-state results at concrete arguments. -/
theorem C2_witness :
    (wait_for_updates emptyNoBus none 30 none "normal").status = "error" ∧
    (wait_for_updates emptyNoBus none 30 none "normal").events = [] ∧
    (sync_changes emptyNoBus none false).events = [] ∧
    (sync_changes emptyNoBus none false).next_sync_id = none :=
  C2_unavailable_structured emptyNoBus none 30 none "normal" none false rfl

/-- C3: the claim as stated is false: the result `wait_for_updates` returns
when the event system is unavailable has status `error` but carries neither
a `last_event_id` nor a `duration` key (`server.py` lines 164-170 return
only `status`, `error`, `events`, `summary`). -/
theorem C3_counterexample :
    (wait_for_updates emptyNoBus none 30 none "normal").status = "error" ∧
    (wait_for_updates emptyNoBus none 30 none "normal").last_event_id = none ∧
    (wait_for_updates emptyNoBus none 30 none "normal").duration = none :=
  ⟨rfl, rfl, rfl⟩

/-- C3 amended: whenever the event system is available, every result of
`wait_for_updates` carries all five keys — `status`, `events` and `summary`
by construction of the result, and `last_event_id` and `duration` as
present optional keys; the unavailable-path `error` result omits
`last_event_id` and `duration`. -/
theorem C3_keys_available (s : ServerState) (bus : EventBus)
    (targets : Option (List String)) (t : Int) (since : Option Nat)
    (priority_min : String) (hbus : s.event_manager = some bus) :
    (wait_for_updates s targets t since priority_min).last_event_id.isSome = true ∧
    (wait_for_updates s targets t since priority_min).duration.isSome = true := by
  unfold wait_for_updates
  rw [hbus]
  exact (wait_result_shape bus _ _ since).2

/-- C3 witness: with a started bus the keys are all present at concrete
arguments. -/
theorem C3_witness :
    (wait_for_updates emptyWithBus none 30 none "normal").last_event_id.isSome = true ∧
    (wait_for_updates emptyWithBus none 30 none "normal").duration.isSome = true :=
  C3_keys_available emptyWithBus bus0 none 30 none "normal" rfl

/-- C4: `wait_for_updates` maps the labels low, normal, high, critical to
the numeric priorities 0, 1, 2, 3, and any other label defaults to
NORMAL (1) rather than failing the call. -/
theorem C4_priority_labels :
    wait_priority "low" = 0 ∧ wait_priority "normal" = 1 ∧
    wait_priority "high" = 2 ∧ wait_priority "critical" = 3 ∧
    ∀ p : String, p ≠ "low" → p ≠ "normal" → p ≠ "high" → p ≠ "critical" →
      wait_priority p = 1 := by
  refine ⟨rfl, rfl, rfl, rfl, fun p h1 h2 h3 h4 => ?_⟩
  have e1 : (p == "low") = false := beq_eq_false_iff_ne.mpr h1
  have e2 : (p == "normal") = false := beq_eq_false_iff_ne.mpr h2
  have e3 : (p == "high") = false := beq_eq_false_iff_ne.mpr h3
  have e4 : (p == "critical") = false := beq_eq_false_iff_ne.mpr h4
  simp [wait_priority, priority_map, List.lookup, e1, e2, e3, e4]

/-- C4 witness: the unknown label `urgent` resolves to NORMAL (1). -/
theorem C4_witness : wait_priority "urgent" = 1 :=
  C4_priority_labels.2.2.2.2 "urgent" (by decide) (by decide) (by decide)
    (by decide)

/-- C5: a `delete_note` call whose id is not stored returns the error dict
and leaves the whole server state — notes, counters and the event bus with
its log — untouched, so nothing is emitted and no waiter or subscriber can
be notified. -/
theorem C5_failed_delete_no_emit (s : ServerState) (nid : String)
    (h : s.notes_db.lookup nid = none) :
    (delete_note nid s).1 = .err ("Note with ID '" ++ nid ++ "' not found") ∧
    (delete_note nid s).2 = s := by
  unfold delete_note delete_note_raw
  rw [h]
  refine ⟨rfl, ?_⟩
  cases hb : s.event_manager <;> simp [emit_after, DeleteResult.isErr, hb]

/-- C5 witness: deleting the unknown id `missing` from the fresh started
state fails without any state change. -/
theorem C5_witness :
    (delete_note "missing" emptyWithBus).1 =
      .err ("Note with ID '" ++ "missing" ++ "' not found") ∧
    (delete_note "missing" emptyWithBus).2 = emptyWithBus :=
  C5_failed_delete_no_emit emptyWithBus "missing" rfl

/-- C6: a `write_note` call without a `note_id` whose minted id is not
already stored reports `action = "created"` and `success`, and the new bus
state is exactly one `append` of the CREATE draft: one event is emitted
(one id is assigned), with type CREATE, target `note`, priority HIGH and
ui_hint `navigate_to`. -/
theorem C6_create_emits_one_create (s : ServerState) (bus : EventBus)
    (now : Nat) (title content summary : String) (tags : Option (List String))
    (hbus : s.event_manager = some bus)
    (hfresh : s.notes_db.lookup
      (((title.toLower.replace " " "-").take 30) ++ "-" ++
        toString (s.note_counter + 1)) = none) :
    (write_note now title content summary tags none s).1.action = "created" ∧
    (write_note now title content summary tags none s).1.success = true ∧
    (write_note now title content summary tags none s).2.event_manager =
      some (bus.append write_note_draft).1 ∧
    (bus.append write_note_draft).1.nextId = bus.nextId + 1 ∧
    (bus.append write_note_draft).2 =
      { id := bus.nextId, type := .CREATE, target := "note",
        priority := .HIGH, ui_hint := some "navigate_to" } := by
  refine ⟨?_, ?_, ?_, rfl, rfl⟩ <;>
    simp [write_note, write_note_raw, optStrTruthy, emit_after, hbus, hfresh]

/-- C6 witness: the first `write_note` on the fresh started state creates
the note and appends the CREATE/HIGH/navigate_to event with id 1. -/
theorem C6_witness :
    (write_note 0 "t" "c" "s" none none emptyWithBus).1.action = "created" ∧
    (write_note 0 "t" "c" "s" none none emptyWithBus).2.event_manager =
      some (bus0.append write_note_draft).1 ∧
    (bus0.append write_note_draft).2 =
      { id := 1, type := .CREATE, target := "note", priority := .HIGH,
        ui_hint := some "navigate_to" } := by
  have h := C6_create_emits_one_create emptyWithBus bus0 0 "t" "c" "s" none
    rfl rfl
  exact ⟨h.1, h.2.2.1, h.2.2.2.2⟩

/-- C7: with the event system available and no event newer than the cursor
`X` (nothing changed), `sync_changes (some X)` returns empty `events` and
`next_sync_id = X`; the call reads the state without modifying it, so a
second call with the same cursor is the same expression and returns the
same empty result. -/
theorem C7_sync_idempotent (s : ServerState) (bus : EventBus) (X : Nat)
    (inc : Bool) (hbus : s.event_manager = some bus)
    (hle : ∀ e ∈ bus.log, e.id ≤ X) :
    (sync_changes s (some X) inc).events = [] ∧
    (sync_changes s (some X) inc).next_sync_id = some X := by
  have hnil : bus.events_since X = [] := by
    simp only [EventBus.events_since, List.filter_eq_nil_iff]
    intro e he
    simpa using Nat.not_lt.mpr (hle e he)
  unfold sync_changes EventBus.sync_changes
  rw [hbus]
  cases inc <;> simp [hnil]

/-- C7 witness: syncing the fresh started state (empty log) from cursor 0
returns no events and hands the cursor back. -/
theorem C7_witness :
    (sync_changes emptyWithBus (some 0) false).events = [] ∧
    (sync_changes emptyWithBus (some 0) false).next_sync_id = some 0 :=
  C7_sync_idempotent emptyWithBus bus0 0 false rfl (by intro e he; cases he)

/-- C8: the claim as stated is false: with the event system unavailable and
`include_full_state = False`, `sync_changes` still returns a `state` key
(the literal empty dict `{}`, `server.py` line 226), so `state` is not
present only when `include_full_state` is true. -/
theorem C8_counterexample :
    (sync_changes emptyNoBus none false).state = some .emptyObj ∧
    ((sync_changes emptyNoBus none false).state).isSome = true :=
  ⟨rfl, rfl⟩

/-- C8 amended: with the event system available, the result of
`sync_changes` contains the `state` key iff `include_full_state` is true,
and then `state` is built from the current stores as
`{notes: list(notes_db.values()), tasks: list(tasks_db.values())}`; with the
event system unavailable the result always carries `state = {}`. -/
theorem C8_state_iff_full (s : ServerState) (bus : EventBus)
    (lsi : Option Nat) (hbus : s.event_manager = some bus) :
    (sync_changes s lsi true).state =
      some (.full (s.notes_db.map Prod.snd) (s.tasks_db.map Prod.snd)) ∧
    (sync_changes s lsi false).state = none := by
  unfold sync_changes EventBus.sync_changes
  rw [hbus]
  exact ⟨rfl, rfl⟩

/-- C8 witness: on the started sample state, `state` is the full snapshot
exactly when `include_full_state` is set. -/
theorem C8_witness :
    (sync_changes oneNoteState none true).state =
      some (.full [sampleNote] []) ∧
    (sync_changes oneNoteState none false).state = none :=
  C8_state_iff_full oneNoteState bus0 none rfl

/-- C9: no task operation touches the event manager: for every state and
arguments, `task_create`, `task_update` and `task_delete` (successful or
not) leave the bus — its log, its next id — exactly as it was, so no event
is appended and no waiter or subscriber can be notified. -/
theorem C9_task_ops_no_emit (s : ServerState) (now : Nat)
    (title description priority task_id : String)
    (ust : Option String) (uti : Option String) (ude : Option String)
    (upr : Option String) :
    (task_create now title description priority s).2.event_manager =
      s.event_manager ∧
    (task_update now task_id ust uti ude upr s).2.event_manager =
      s.event_manager ∧
    (task_delete task_id s).2.event_manager = s.event_manager := by
  refine ⟨rfl, ?_, ?_⟩
  · unfold task_update
    cases s.tasks_db.lookup task_id <;> rfl
  · unfold task_delete
    cases s.tasks_db.lookup task_id <;> rfl

/-- C10: a `write_note` call whose truthy `note_id` is already stored
reports `action = "updated"`, yet the bus advances by one `append` of the
same CREATE draft — type CREATE (not UPDATE), target `note`, priority
HIGH — and none of the three drafts any note operation can emit
(`write_note`, `delete_note`, `list_notes`) has type UPDATE. -/
theorem C10_update_emits_create (s : ServerState) (bus : EventBus)
    (now : Nat) (title content summary nid : String)
    (tags : Option (List String)) (n : Note)
    (hbus : s.event_manager = some bus) (hnid : nid ≠ "")
    (hex : s.notes_db.lookup nid = some n) :
    (write_note now title content summary tags (some nid) s).1.action =
      "updated" ∧
    (write_note now title content summary tags (some nid) s).2.event_manager =
      some (bus.append write_note_draft).1 ∧
    write_note_draft.type = .CREATE ∧
    write_note_draft.type ≠ .UPDATE ∧
    write_note_draft.target = "note" ∧
    write_note_draft.priority = .HIGH ∧
    delete_note_draft.type ≠ .UPDATE ∧
    list_notes_draft.type ≠ .UPDATE := by
  unfold write_note write_note_raw
  simp only [optStrTruthy, hnid, Bool.not_true, if_false, Option.getD, hex]
  refine ⟨?_, ?_, rfl, by decide, rfl, rfl, by decide, by decide⟩
  · simp [hnid, hex]
  · simp [hnid, hex, emit_after, hbus]

/-- C10 witness: overwriting the stored note `n1` reports `updated` while
appending a CREATE-typed event. -/
theorem C10_witness :
    (write_note 1 "t2" "c2" "s2" none (some "n1") oneNoteState).1.action =
      "updated" ∧
    (write_note 1 "t2" "c2" "s2" none (some "n1") oneNoteState).2.event_manager =
      some (bus0.append write_note_draft).1 ∧
    write_note_draft.type = .CREATE := by
  have h := C10_update_emits_create oneNoteState bus0 1 "t2" "c2" "s2" "n1"
    none sampleNote rfl (by decide) rfl
  exact ⟨h.1, h.2.1, h.2.2.1⟩

end NotesMcp
